import Mathlib

/-
Verification of the update core of chainerrl/agents/acer.py (DiscreteACER).

Shallow embedding conventions:
* Python floats are modelled as rationals (all quantities appearing in the
  claims are produced by exact arithmetic on the inputs).  Rational division
  by zero yields 0 in Lean; wherever the Python code can divide by zero the
  divisor is exposed as its own definition so that theorems can show the
  zero divisor is reached.  The IEEE consequences (inf or NaN plus a NumPy
  RuntimeWarning) are discussed in prose next to those theorems.
* Vectors over the discrete action set are functions Fin n → ℚ.
* Autodiff through the distribution logits is represented by recording,
  per timestep, the gradient of each log-probability with respect to the
  logits (field gradLogProb) and the gradient of the KL term (field kvec).
  Both update paths of the source read exactly the same recorded data, so
  gradient equality between the two paths reduces to equality of the
  detached per-step coefficients (the z vectors and the value targets),
  which the embedding computes explicitly.
* Python dict-based per-timestep buffers are modelled by lists of their
  keys (plus the reward value where it is available to the scheduler);
  the claims about them concern only emptiness and scheduling.
* Exceptions are modelled with Except String.
-/

namespace Acer

/-- np.dot for action-space vectors. -/
def dotF {n : ℕ} (x y : Fin n → ℚ) : ℚ := ∑ j, x j * y j

/-- Concrete two-action vector literal (kernel-reducible). -/
def vec2 (a b : ℚ) : Fin 2 → ℚ := fun j => if j.val = 0 then a else b

/-- Concrete one-action vector literal (kernel-reducible). -/
def vec1 (a : ℚ) : Fin 1 → ℚ := fun _ => a

/-- Configuration fields of DiscreteACER that the update maths reads. -/
structure ACfg where
  gamma : ℚ
  beta : ℚ
  trust_region_c : ℚ
  trust_region_delta : ℚ
  pi_loss_coef : ℚ
  v_loss_coef : ℚ
  normalize_loss_by_steps : Bool
  deriving DecidableEq

/-- Trust-region step exactly as written in acer.py lines 230-232 (and the
identical lines 386-388): z = g - max(0, (k.g - delta) / (k.k)).  The
max(0, ...) scalar is broadcast-subtracted from every component of g; it is
not multiplied by k. -/
def compute_z {n : ℕ} (cfg : ACfg) (g k : Fin n → ℚ) : Fin n → ℚ :=
  fun m => g m - max 0 ((dotF k g - cfg.trust_region_delta) / dotF k k)

/-- Modelled from the spec: the projection formula the spec states,
z = g - max(0, (k.g - delta) / (k.k)) * k, in which the correction scalar
multiplies the vector k before the subtraction.  Used only to compare the
code against the claimed formula. -/
def z_spec_formula {n : ℕ} (cfg : ACfg) (g k : Fin n → ℚ) : Fin n → ℚ :=
  fun m => g m - max 0 ((dotF k g - cfg.trust_region_delta) / dotF k k) * k m

/-- The divisor of the trust-region correction scalar, np.dot(k, k).  The
code divides by it unconditionally. -/
def trust_region_divisor {n : ℕ} (k : Fin n → ℚ) : ℚ := dotF k k

/-- A concrete configuration with the default delta = 1 (other fields at
their documented defaults), used by concrete evaluations. -/
def cfgDefault : ACfg :=
  { gamma := 9/10, beta := 1/100, trust_region_c := 10,
    trust_region_delta := 1, pi_loss_coef := 1, v_loss_coef := 1/2,
    normalize_loss_by_steps := true }

/-- C1: the claim states that both update paths compute
z = g - max(0, (k.g - delta) / (k.k)) * k, with the correction scalar
multiplied by the vector k.  The code instead broadcast-subtracts the bare
scalar from g.  At g = (3, 0), k = (2, 0), delta = 1 the scalar is
(6 - 1) / 4 = 5/4, the code yields (7/4, -5/4) while the claimed formula
yields (1/2, 0), so the two disagree. -/
theorem C1_projection_drops_k :
    compute_z cfgDefault (vec2 3 0) (vec2 2 0) = vec2 (7/4) (-5/4) ∧
    z_spec_formula cfgDefault (vec2 3 0) (vec2 2 0) = vec2 (1/2) 0 ∧
    compute_z cfgDefault (vec2 3 0) (vec2 2 0) ≠
      z_spec_formula cfgDefault (vec2 3 0) (vec2 2 0) := by
  have ha : compute_z cfgDefault (vec2 3 0) (vec2 2 0) = vec2 (7/4) (-5/4) := by
    funext m
    fin_cases m <;>
      norm_num [compute_z, dotF, vec2, Fin.sum_univ_two, cfgDefault]
  have hb : z_spec_formula cfgDefault (vec2 3 0) (vec2 2 0) = vec2 (1/2) 0 := by
    funext m
    fin_cases m <;>
      norm_num [z_spec_formula, dotF, vec2, Fin.sum_univ_two, cfgDefault]
  refine ⟨ha, hb, ?_⟩
  rw [ha, hb]
  intro h
  have h0 := congrFun h 0
  norm_num [vec2] at h0

/-- C2: the claim states that the division by k.k is explicitly guarded so
that it is never evaluated when k = 0.  The code has no guard: with
k = (0, 0) the divisor np.dot(k, k) it unconditionally divides by equals 0.
In this exact-arithmetic embedding (division by zero gives 0) the result
happens to equal g; under IEEE arithmetic the code evaluates
(0 - delta) / 0 = -inf with a RuntimeWarning (NaN when delta = 0) before
max(0, .) discards it. -/
theorem C2_zero_k_divisor_reached :
    trust_region_divisor (vec2 0 0) = 0 ∧
    compute_z cfgDefault (vec2 1 2) (vec2 0 0) = vec2 1 2 := by
  constructor
  · norm_num [trust_region_divisor, dotF, vec2, Fin.sum_univ_two]
  · funext m
    fin_cases m <;>
      norm_num [compute_z, dotF, vec2, Fin.sum_univ_two, cfgDefault]

/-- Importance ratios computed by update_from_replay, acer.py lines
315-316: rho = pi(a|s) / mu(a|s) and, per action j,
rho_a j = pi(j|s) / mu(j|s).  There is no guard of any kind on mu. -/
def replay_rhos {n : ℕ} (piAll muAll : Fin n → ℚ) (a : Fin n) :
    ℚ × (Fin n → ℚ) :=
  (piAll a / muAll a, fun j => piAll j / muAll j)

/-- C6: the claim states the ratio computation is guarded when the stored
behavior distribution assigns probability zero.  The code divides
unconditionally: for the replayed transition with pi = (1/2, 1/2),
mu = (0, 1) and taken action 0, the divisor mu(a|s) equals 0 and the
division is still performed (under IEEE arithmetic it yields inf with a
RuntimeWarning and propagates into rho_bar and the correction weights; the
exact-arithmetic embedding renders the quotient as 0). -/
theorem C6_zero_mu_divisor_reached :
    vec2 0 1 0 = 0 ∧
    (replay_rhos (vec2 (1/2) (1/2)) (vec2 0 1) 0).1 = (1/2 : ℚ) / 0 ∧
    (replay_rhos (vec2 (1/2) (1/2)) (vec2 0 1) 0).2 0 = (1/2 : ℚ) / 0 := by
  refine ⟨?_, ?_, ?_⟩ <;> norm_num [replay_rhos, vec2]

/-- Per-timestep data read by the update engine (DiscreteACER.update,
acer.py lines 177-241).  reward, action, V (= values[i]), qvals
(= action_values[i].q_values), entropy and logits are the recorded model
outputs for step i; gradLogProb a is the gradient of log pi(a|s_i) with
respect to the logits (what g_loss.backward deposits per unit of
coefficient), and kvec is the gradient of the KL divergence between the
average and current distributions with respect to the logits (what
kl.backward deposits). -/
structure EStep (n : ℕ) where
  reward : ℚ
  action : Fin n
  V : ℚ
  qvals : Fin n → ℚ
  entropy : ℚ
  logits : Fin n → ℚ
  gradLogProb : Fin n → Fin n → ℚ
  kvec : Fin n → ℚ

/-- Result of one update: the two scalar losses after coefficient scaling
and normalization, plus the detached per-step quantities that determine
the parameter gradients: zs (the z vector of each step; the policy-loss
gradient through the logits of step i is -z plus the shared entropy-bonus
term), targets (the return target used at each step: Q_ret in the
off-policy engine, R in update_on_policy), and v_grads (the derivative of
the value-loss term of each step with respect to V[i]). -/
structure UOut (n : ℕ) where
  pi_loss : ℚ
  v_loss : ℚ
  zs : List (Fin n → ℚ)
  targets : List ℚ
  v_grads : List ℚ

/-- Bias-correction weight, acer.py lines 205-207:
np.maximum((rho_a[i] - c) / rho_a[i], 0), elementwise. -/
def correction_weight (c x : ℚ) : ℚ := max ((x - c) / x) 0

/-- Gradient through the logits of the on-policy score
g_loss = log_prob * advantage (acer.py line 216, and line 372 of
update_on_policy). -/
def g_on_policy {n : ℕ} (s : EStep n) (adv : ℚ) : Fin n → ℚ :=
  fun m => adv * s.gradLogProb s.action m

/-- Gradient through the logits of the off-policy score, acer.py lines
200-213: rho_bar * log_prob * advantage plus the bias-correction term
sum_j correction_weight j * log pi(j|s) * (Q(s,j) - V), with rho_bar =
min(c, rho[i]) and the advantages detached. -/
def g_off_policy {n : ℕ} (c : ℚ) (s : EStep n) (rho_i : ℚ)
    (rhoA_i : Fin n → ℚ) (adv : ℚ) : Fin n → ℚ :=
  fun m => min c rho_i * adv * s.gradLogProb s.action m +
    ∑ j, correction_weight c (rhoA_i j) * (s.qvals j - s.V) * s.gradLogProb j m

/-- Backward loop of DiscreteACER.update (acer.py lines 185-241), run over
the steps in reverse chronological order carrying Q_ret.  Each list entry
pairs the step data with the optional (rho[i], rho_a[i]) entry; the engine
receives none for every step when its rho argument defaults to None.  The
branch on rho for the score term (lines 200-216) is taken per step, and
the recursive return update at line 241 subscripts rho unconditionally,
raising a TypeError when rho is None; the accumulated losses of the step
being processed are discarded by the exception. -/
def update_loop {n : ℕ} (cfg : ACfg) :
    List (EStep n × Option (ℚ × (Fin n → ℚ))) → ℚ →
    Except String (UOut n × ℚ)
  | [], R => Except.ok (⟨0, 0, [], [], []⟩, R)
  | (s, ri) :: rest, R =>
    match update_loop cfg rest R with
    | Except.error e => Except.error e
    | Except.ok (o, qin) =>
      let qret := s.reward + cfg.gamma * qin
      let adv := qret - s.V
      let g := match ri with
        | some (r, ra) => g_off_policy cfg.trust_region_c s r ra adv
        | none => g_on_policy s adv
      let z := compute_z cfg g s.kvec
      let pi := o.pi_loss - dotF s.logits z - cfg.beta * s.entropy
      let v := o.v_loss + (qret - s.V) ^ 2 / 2
      match ri with
      | none => Except.error "TypeError: NoneType object is not subscriptable"
      | some (r, _) =>
        Except.ok
          (⟨pi, v, z :: o.zs, qret :: o.targets, (s.V - qret) :: o.v_grads⟩,
           min 1 r * (qret - s.qvals s.action) + s.V)

/-- DiscreteACER.update, acer.py lines 177-272, restricted to the loss
computation (the optimizer application and parameter synchronization that
follow are shared plumbing): runs the backward loop from the bootstrap
value R, then applies the loss coefficients and, when configured, the
normalization by the window length (lines 243-248). -/
def update {n : ℕ} (cfg : ACfg) (R : ℚ) (steps : List (EStep n))
    (rho : Option (List (ℚ × (Fin n → ℚ)))) : Except String (UOut n) :=
  let paired : List (EStep n × Option (ℚ × (Fin n → ℚ))) :=
    match rho with
    | none => steps.map (fun s => (s, none))
    | some l => steps.zip (l.map some)
  match update_loop cfg paired R with
  | Except.error e => Except.error e
  | Except.ok (o, _) =>
    let d : ℚ := if cfg.normalize_loss_by_steps then (steps.length : ℚ) else 1
    Except.ok { o with pi_loss := o.pi_loss * cfg.pi_loss_coef / d,
                       v_loss := o.v_loss * cfg.v_loss_coef / d }

/-- Backward loop of DiscreteACER.update_on_policy (acer.py lines
356-393), carrying the plain discounted return R (lines 357-358) with no
importance correction and no re-basing, and accumulating the same loss
shapes (v_loss uses (v - R)^2 / 2, line 393). -/
def update_on_policy_loop {n : ℕ} (cfg : ACfg) :
    List (EStep n) → ℚ → UOut n × ℚ
  | [], R => (⟨0, 0, [], [], []⟩, R)
  | s :: rest, R =>
    let (o, rin) := update_on_policy_loop cfg rest R
    let Ri := rin * cfg.gamma + s.reward
    let adv := Ri - s.V
    let z := compute_z cfg (g_on_policy s adv) s.kvec
    (⟨o.pi_loss - dotF s.logits z - cfg.beta * s.entropy,
      o.v_loss + (s.V - Ri) ^ 2 / 2,
      z :: o.zs, Ri :: o.targets, (s.V - Ri) :: o.v_grads⟩, Ri)

/-- DiscreteACER.update_on_policy, acer.py lines 341-434, restricted to
the loss computation over the trajectory window with bootstrap R. -/
def update_on_policy {n : ℕ} (cfg : ACfg) (R : ℚ)
    (steps : List (EStep n)) : UOut n :=
  let o := (update_on_policy_loop cfg steps R).1
  let d : ℚ := if cfg.normalize_loss_by_steps then (steps.length : ℚ) else 1
  { o with pi_loss := o.pi_loss * cfg.pi_loss_coef / d,
           v_loss := o.v_loss * cfg.v_loss_coef / d }

/-- Helper: with rho = None the backward loop raises on any non-empty
window, because line 241 subscripts rho before the loop can move to an
earlier step. -/
lemma update_loop_none_error {n : ℕ} (cfg : ACfg) (R : ℚ) (s : EStep n)
    (rest : List (EStep n)) :
    update_loop cfg ((s :: rest).map (fun t => (t, none))) R =
      Except.error "TypeError: NoneType object is not subscriptable" := by
  induction rest generalizing s with
  | nil => rfl
  | cons s2 rest ih =>
    simp only [List.map_cons] at ih ⊢
    rw [update_loop, ih s2]

/-- C10: on every non-empty window, calling the return/correction engine
update with its default rho = None raises a TypeError during the first
backward step, because line 241 evaluates min(1, rho[i]) unconditionally;
the on-policy configuration of this function is unusable and the pure
on-policy path lives in the separate update_on_policy. -/
theorem C10_update_rho_none_raises {n : ℕ} (cfg : ACfg) (R : ℚ)
    (steps : List (EStep n)) (h : steps ≠ []) :
    update cfg R steps none =
      Except.error "TypeError: NoneType object is not subscriptable" := by
  cases steps with
  | nil => exact absurd rfl h
  | cons s rest =>
    have h2 := update_loop_none_error cfg R s rest
    simp only [List.map_cons] at h2
    simp [update, h2]

/-- Plain discounted return of a reward list continued by the bootstrap
value R: r0 + gamma * (r1 + gamma * (... + gamma * R)). -/
def discounted_sum (gamma R : ℚ) : List ℚ → ℚ
  | [] => R
  | r :: rest => r + gamma * discounted_sum gamma R rest

/-- The closed-form backward-sum sequence: entry i is the plain discounted
return of the reward suffix starting at step i. -/
def discounted_return_seq (gamma R : ℚ) : List ℚ → List ℚ
  | [] => []
  | r :: rest =>
    discounted_sum gamma R (r :: rest) :: discounted_return_seq gamma R rest

/-- C3 (amended): for the fixed 3-step episode with rewards 1, 0, 2,
gamma = 9/10, rho identically 1 and terminal bootstrap 0, the engine's
Q_ret sequence equals the plain discounted-return backward sums, provided
Q(s_i, a_i) = V[i] at every step, which makes the re-basing at line 241
the identity.  Without that extra hypothesis the claim is false, see the
counterexample. -/
theorem C3_qret_eq_discounted_returns {n : ℕ} (cfg : ACfg)
    (s0 s1 s2 : EStep n) (ra0 ra1 ra2 : Fin n → ℚ)
    (hg : cfg.gamma = 9/10)
    (hr0 : s0.reward = 1) (hr1 : s1.reward = 0) (hr2 : s2.reward = 2)
    (hq0 : s0.qvals s0.action = s0.V) (hq1 : s1.qvals s1.action = s1.V)
    (hq2 : s2.qvals s2.action = s2.V) :
    (update cfg 0 [s0, s1, s2]
        (some [(1, ra0), (1, ra1), (1, ra2)])).map UOut.targets =
      Except.ok (discounted_return_seq (9/10) 0 [1, 0, 2]) := by
  simp [update, update_loop, Except.map, discounted_return_seq,
    discounted_sum, hg, hr0, hr1, hr2, hq0, hq1, hq2]

/-- Steps of the C3 counterexample: same rewards, rho identically 1, but
at the last step Q(s_2, a_2) = 1 while V[2] = 0. -/
def c3s0 : EStep 1 :=
  { reward := 1, action := 0, V := 0, qvals := vec1 0, entropy := 0,
    logits := vec1 0, gradLogProb := fun _ _ => 0, kvec := vec1 0 }

/-- Second step of the C3 counterexample. -/
def c3s1 : EStep 1 :=
  { reward := 0, action := 0, V := 0, qvals := vec1 0, entropy := 0,
    logits := vec1 0, gradLogProb := fun _ _ => 0, kvec := vec1 0 }

/-- Third step of the C3 counterexample, with Q and V disagreeing. -/
def c3s2 : EStep 1 :=
  { reward := 2, action := 0, V := 0, qvals := vec1 1, entropy := 0,
    logits := vec1 0, gradLogProb := fun _ _ => 0, kvec := vec1 0 }

/-- C3 counterexample: on the very episode the claim fixes (rewards
1, 0, 2, gamma = 9/10, rho identically 1, terminal bootstrap 0) the
engine's Q_ret sequence is 181/100, 9/10, 2 while the closed-form
discounted-return sequence is 131/50, 9/5, 2: the re-basing step
Q_ret := min(1, rho) * (Q_ret - Q) + V shifts every earlier entry when
Q(s_i, a_i) differs from V[i]. -/
theorem C3_counterexample :
    (update cfgDefault 0 [c3s0, c3s1, c3s2]
        (some [(1, vec1 1), (1, vec1 1), (1, vec1 1)])).map UOut.targets ≠
      Except.ok (discounted_return_seq (9/10) 0 [1, 0, 2]) := by
  intro h
  simp [update, update_loop, Except.map, discounted_return_seq,
    discounted_sum, cfgDefault, c3s0, c3s1, c3s2, vec1] at h

/-- A concrete step family with Q = V for the C3 witness. -/
def c3w (r : ℚ) : EStep 1 :=
  { reward := r, action := 0, V := 5, qvals := vec1 5, entropy := 0,
    logits := vec1 0, gradLogProb := fun _ _ => 0, kvec := vec1 0 }

/-- Witness for C3: the amended theorem applied at a concrete episode. -/
theorem C3_qret_eq_discounted_returns_witness :
    (update cfgDefault 0 [c3w 1, c3w 0, c3w 2]
        (some [(1, vec1 1), (1, vec1 1), (1, vec1 1)])).map UOut.targets =
      Except.ok (discounted_return_seq (9/10) 0 [1, 0, 2]) :=
  C3_qret_eq_discounted_returns cfgDefault (c3w 1) (c3w 0) (c3w 2)
    (vec1 1) (vec1 1) (vec1 1) rfl rfl rfl rfl rfl rfl rfl

/-- Helper: with clip constant c at least 1 and both importance ratios
identically 1, the off-policy score gradient collapses to the on-policy
one: rho_bar = min(c, 1) = 1 and every bias-correction weight
max((1 - c) / 1, 0) is 0. -/
lemma g_off_policy_rho_one {n : ℕ} (c : ℚ) (s : EStep n) (rhoA : Fin n → ℚ)
    (adv : ℚ) (hc : 1 ≤ c) (hra : ∀ j, rhoA j = 1) :
    g_off_policy c s 1 rhoA adv = g_on_policy s adv := by
  funext m
  have hw : ∀ j : Fin n, correction_weight c (rhoA j) = 0 := by
    intro j
    rw [hra j]
    unfold correction_weight
    apply max_eq_right
    rw [div_one]
    linarith
  simp [g_off_policy, g_on_policy, hw, min_eq_right hc]

/-- Helper: with rho identically 1, clip constant at least 1 and
Q(s_i, a_i) = V[i] at every step, the off-policy backward loop computes
exactly what the on-policy loop computes. -/
lemma update_loop_rho_one {n : ℕ} (cfg : ACfg)
    (hc : 1 ≤ cfg.trust_region_c) :
    ∀ (steps : List (EStep n)) (rho : List (ℚ × (Fin n → ℚ))) (R : ℚ),
      rho.length = steps.length →
      (∀ p ∈ rho, p.1 = 1 ∧ ∀ j, p.2 j = 1) →
      (∀ s ∈ steps, s.qvals s.action = s.V) →
      update_loop cfg (steps.zip (rho.map some)) R =
        Except.ok (update_on_policy_loop cfg steps R) := by
  intro steps
  induction steps with
  | nil =>
    intro rho R hlen hrho hqv
    have : rho = [] := List.length_eq_zero.mp hlen
    subst this
    rfl
  | cons s rest ih =>
    intro rho R hlen hrho hqv
    cases rho with
    | nil => simp at hlen
    | cons p prest =>
      obtain ⟨p1, p2⟩ := p
      have hp := hrho (p1, p2) (List.mem_cons_self _ _)
      have hp1 : p1 = 1 := hp.1
      have hp2 : ∀ j, p2 j = 1 := hp.2
      have hq : s.qvals s.action = s.V := hqv s (List.mem_cons_self _ _)
      have hrest := ih prest R (by simpa using hlen)
        (fun q hqmem => hrho q (List.mem_cons_of_mem _ hqmem))
        (fun t htmem => hqv t (List.mem_cons_of_mem _ htmem))
      subst hp1
      rcases hup : update_on_policy_loop cfg rest R with ⟨o, rin⟩
      rw [hup] at hrest
      simp only [List.zip] at hrest
      have harg : s.reward + cfg.gamma * rin = rin * cfg.gamma + s.reward := by
        ring
      simp only [List.map_cons, List.zip_cons_cons, List.zip, update_loop,
        hrest, update_on_policy_loop, hup,
        g_off_policy_rho_one cfg.trust_region_c s p2 _ hc hp2,
        hq, min_self, one_mul, Except.ok.injEq, Prod.mk.injEq, UOut.mk.injEq]
      rw [harg]
      refine ⟨⟨rfl, by ring, rfl, rfl, rfl⟩, by ring⟩

/-- C4 (amended): when the behavior distribution equals the current policy
at every step (both importance ratios identically 1), the clip constant c
is at least 1 (as with the default c = 10), and additionally
Q(s_i, a_i) = V[i] at every step, the off-policy engine produces exactly
the losses and per-step gradient coefficients of the pure on-policy path:
rho_bar = 1, every bias-correction weight is 0, and the Retrace re-basing
is the identity.  Without the Q = V hypothesis the claim is false because
the two paths recurse on different return targets, see the
counterexample. -/
theorem C4_rho_one_matches_on_policy {n : ℕ} (cfg : ACfg) (R : ℚ)
    (steps : List (EStep n)) (rho : List (ℚ × (Fin n → ℚ)))
    (hc : 1 ≤ cfg.trust_region_c)
    (hlen : rho.length = steps.length)
    (hrho : ∀ p ∈ rho, p.1 = 1 ∧ ∀ j, p.2 j = 1)
    (hqv : ∀ s ∈ steps, s.qvals s.action = s.V) :
    update cfg R steps (some rho) =
      Except.ok (update_on_policy cfg R steps) := by
  have h := update_loop_rho_one cfg hc steps rho R hlen hrho hqv
  rcases hup : update_on_policy_loop cfg steps R with ⟨o, x⟩
  rw [hup] at h
  simp only [List.zip] at h
  simp [update, update_on_policy, List.zip, h, hup]

/-- First step of the C4 counterexample (Q = V there). -/
def c4s0 : EStep 1 :=
  { reward := 0, action := 0, V := 0, qvals := vec1 0, entropy := 0,
    logits := vec1 0, gradLogProb := fun _ _ => 0, kvec := vec1 0 }

/-- Second step of the C4 counterexample, with Q(s, a) = 1 but V = 0. -/
def c4s1 : EStep 1 :=
  { reward := 0, action := 0, V := 0, qvals := vec1 1, entropy := 0,
    logits := vec1 0, gradLogProb := fun _ _ => 0, kvec := vec1 0 }

/-- C4 counterexample: a 2-step window with both importance ratios
identically 1 and the default configuration on which the off-policy
engine and the on-policy path disagree: the engine re-bases the return
after the later step (Q_ret becomes min(1,1) * (0 - 1) + 0 = -1, so the
earlier value-loss gradient is 9/10) while the on-policy recursion keeps
R = 0 everywhere. -/
theorem C4_counterexample :
    update cfgDefault 0 [c4s0, c4s1]
        (some [(1, vec1 1), (1, vec1 1)]) ≠
      Except.ok (update_on_policy cfgDefault 0 [c4s0, c4s1]) := by
  intro h
  simp [update, update_on_policy, update_loop, update_on_policy_loop,
    List.zip, cfgDefault, c4s0, c4s1, vec1, dotF, compute_z, g_on_policy,
    g_off_policy, correction_weight, Fin.sum_univ_one,
    Except.ok.injEq, UOut.mk.injEq] at h

/-- A concrete step with Q = V for the C4 witness. -/
def c4w : EStep 1 :=
  { reward := 1, action := 0, V := 3, qvals := vec1 3, entropy := 0,
    logits := vec1 0, gradLogProb := fun _ _ => 0, kvec := vec1 0 }

/-- Witness for C4: the amended equivalence applied at a concrete
one-step window with ratios 1 and Q = V. -/
theorem C4_rho_one_matches_on_policy_witness :
    update cfgDefault 0 [c4w] (some [(1, vec1 1)]) =
      Except.ok (update_on_policy cfgDefault 0 [c4w]) :=
  C4_rho_one_matches_on_policy cfgDefault 0 [c4w] [(1, vec1 1)]
    (by norm_num [cfgDefault]) rfl
    (by
      intro p hp
      rw [List.mem_singleton] at hp
      subst hp
      exact ⟨rfl, fun j => rfl⟩)
    (by
      intro s hs
      rw [List.mem_singleton] at hs
      subst hs
      rfl)

/-- A trivial concrete one-action step used by concrete instantiations. -/
def stepW : EStep 1 :=
  { reward := 1, action := 0, V := 0, qvals := vec1 0, entropy := 0,
    logits := vec1 0, gradLogProb := fun _ _ => 0, kvec := vec1 0 }

/-- Witness for C10: the engine raises at a concrete one-step window. -/
theorem C10_update_rho_none_raises_witness :
    update cfgDefault 0 [stepW] none =
      Except.error "TypeError: NoneType object is not subscriptable" :=
  C10_update_rho_none_raises cfgDefault 0 [stepW] (by simp)

/-- Scheduling-relevant configuration of DiscreteACER. -/
structure SchedConfig where
  t_max : ℕ
  n_times_replay : ℕ

/-- Scheduling-relevant mutable state of DiscreteACER.  The seven
per-timestep dict buffers are modelled by the lists of their keys (plus
the stored reward value for past_rewards); the values they hold are model
outputs that do not influence the scheduling claims.  replay_len models
len(self.replay_buffer), update_count abstracts the optimizer/model
mutation performed by an update, and last_state records whether
self.last_state is not None. -/
structure SchedState where
  t : ℕ
  t_start : ℕ
  past_action_log_prob : List ℕ
  past_action_entropy : List ℕ
  past_states : List ℕ
  past_rewards : List (ℕ × ℚ)
  past_values : List ℕ
  past_action_distrib : List ℕ
  past_avg_action_distrib : List ℕ
  replay_len : ℕ
  update_count : ℕ
  last_state : Bool
  deriving DecidableEq

/-- Scheduling effect of DiscreteACER.update_on_policy (acer.py lines
341-434): asserts t_start < t (line 342), performs the update (modelled by
bumping update_count), clears the seven per-timestep buffers (lines
426-432) and re-bases the window with t_start := t (line 434); t itself is
untouched. -/
def update_on_policy_sched (s : SchedState) : Except String SchedState :=
  if s.t_start < s.t then
    Except.ok { s with
      past_action_log_prob := [], past_action_entropy := [],
      past_states := [], past_rewards := [], past_values := [],
      past_action_distrib := [], past_avg_action_distrib := [],
      t_start := s.t, update_count := s.update_count + 1 }
  else Except.error "AssertionError"

/-- Scheduling effect of DiscreteACER.update_from_replay (acer.py lines
274-339): returns immediately when the replay buffer is empty (lines
276-277); otherwise samples one episode and runs the engine, which
touches only the models and optimizer (modelled by update_count) and
leaves the scheduler bookkeeping and the buffer itself unchanged. -/
def update_from_replay_sched (s : SchedState) : SchedState :=
  if s.replay_len = 0 then s
  else { s with update_count := s.update_count + 1 }

/-- Events observable in the update schedule. -/
inductive Ev where
  | on_policy : Ev
  | replay : Ev
  deriving DecidableEq

/-- The for-loop over n_times_replay calls of update_from_replay
(acer.py lines 444-445 and 517-518); every iteration is one replay-driven
update attempt, a no-op when the buffer is empty. -/
def replay_updates : ℕ → SchedState → SchedState × List Ev
  | 0, s => (s, [])
  | Nat.succ k, s =>
    let rr := replay_updates k (update_from_replay_sched s)
    (rr.1, Ev.replay :: rr.2)

/-- Scheduling skeleton of DiscreteACER.act_and_train (acer.py lines
436-495): records the previous reward at key t - 1, fires the on-policy
update followed by n_times_replay replay attempts exactly when
t - t_start = t_max, then records the new step into every per-timestep
buffer, advances t, appends a completed transition to the replay buffer
when one exists, and marks last_state as set. -/
def act_and_train (cfg : SchedConfig) (reward : ℚ) (s : SchedState) :
    Except String (SchedState × List Ev) :=
  let s0 : SchedState :=
    { s with past_rewards := (s.t - 1, reward) :: s.past_rewards }
  let fired : Except String (SchedState × List Ev) :=
    if s0.t - s0.t_start = cfg.t_max then
      match update_on_policy_sched s0 with
      | Except.error e => Except.error e
      | Except.ok s1 =>
        let rr := replay_updates cfg.n_times_replay s1
        Except.ok (rr.1, Ev.on_policy :: rr.2)
    else Except.ok (s0, [])
  match fired with
  | Except.error e => Except.error e
  | Except.ok (s1, evs) =>
    let s2 : SchedState := { s1 with
      past_states := s1.t :: s1.past_states,
      past_action_log_prob := s1.t :: s1.past_action_log_prob,
      past_action_entropy := s1.t :: s1.past_action_entropy,
      past_values := s1.t :: s1.past_values,
      past_action_distrib := s1.t :: s1.past_action_distrib,
      past_avg_action_distrib := s1.t :: s1.past_avg_action_distrib,
      t := s1.t + 1 }
    Except.ok ({ s2 with
      replay_len := if s.last_state then s2.replay_len + 1
        else s2.replay_len,
      last_state := true }, evs)

/-- Scheduling skeleton of DiscreteACER.stop_episode_and_train (acer.py
lines 507-537): asserts the episode bookkeeping exists, records the final
reward, always runs one on-policy update followed by n_times_replay
replay attempts, appends the terminal transition and clears last_state. -/
def stop_episode_and_train (cfg : SchedConfig) (reward : ℚ) (done : Bool)
    (s : SchedState) : Except String (SchedState × List Ev) :=
  if s.last_state then
    let s0 : SchedState :=
      { s with past_rewards := (s.t - 1, reward) :: s.past_rewards }
    match update_on_policy_sched s0 with
    | Except.error e => Except.error e
    | Except.ok s1 =>
      let rr := replay_updates cfg.n_times_replay s1
      Except.ok
        ({ rr.1 with
            replay_len := rr.1.replay_len + 1,
            last_state := false },
          Ev.on_policy :: rr.2)
  else Except.error "AssertionError"

/-- Helper: the replay loop always performs exactly its configured number
of attempts. -/
lemma replay_updates_events (k : ℕ) :
    ∀ s : SchedState, (replay_updates k s).2 = List.replicate k Ev.replay := by
  induction k with
  | zero => intro s; rfl
  | succ k ih =>
    intro s
    simp [replay_updates, ih, List.replicate]

/-- C5: act_and_train fires an on-policy update exactly when
t - t_start = t_max, in which case it is followed by exactly
n_times_replay replay attempts, and stop_episode_and_train always fires
one on-policy update followed by exactly n_times_replay replay attempts
(for any done flag).  The hypotheses discharge the asserts of the source:
a positive horizon and, for episode end, live episode bookkeeping with a
non-empty window. -/
theorem C5_update_schedule (cfg : SchedConfig) (reward : ℚ) (done : Bool)
    (s : SchedState) (h1 : 1 ≤ cfg.t_max) (h2 : s.last_state = true)
    (h3 : s.t_start < s.t) :
    (act_and_train cfg reward s).map Prod.snd =
      Except.ok (if s.t - s.t_start = cfg.t_max
        then Ev.on_policy :: List.replicate cfg.n_times_replay Ev.replay
        else []) ∧
    (stop_episode_and_train cfg reward done s).map Prod.snd =
      Except.ok (Ev.on_policy :: List.replicate cfg.n_times_replay
        Ev.replay) := by
  constructor
  · by_cases hcond : s.t - s.t_start = cfg.t_max
    · have hts : s.t_start < s.t := by omega
      simp [act_and_train, hcond, update_on_policy_sched, hts,
        replay_updates_events, Except.map]
    · simp [act_and_train, hcond, Except.map]
  · simp [stop_episode_and_train, h2, update_on_policy_sched, h3,
      replay_updates_events, Except.map]

/-- A concrete scheduler state with a 2-step window and empty replay
buffer, used by concrete instantiations. -/
def schedW : SchedState :=
  { t := 5, t_start := 3, past_action_log_prob := [3, 4],
    past_action_entropy := [3, 4], past_states := [3, 4],
    past_rewards := [(3, 1), (4, 2)], past_values := [3, 4],
    past_action_distrib := [3, 4], past_avg_action_distrib := [3, 4],
    replay_len := 0, update_count := 7, last_state := true }

/-- Witness for C5 at a concrete state whose window has just reached the
horizon t_max = 2. -/
theorem C5_update_schedule_witness :
    (act_and_train ⟨2, 3⟩ 1 schedW).map Prod.snd =
      Except.ok (Ev.on_policy :: List.replicate 3 Ev.replay) ∧
    (stop_episode_and_train ⟨2, 3⟩ 1 false schedW).map Prod.snd =
      Except.ok (Ev.on_policy :: List.replicate 3 Ev.replay) := by
  obtain ⟨ha, hb⟩ := C5_update_schedule ⟨2, 3⟩ 1 false schedW
    (by norm_num) rfl (by norm_num [schedW])
  refine ⟨?_, hb⟩
  simpa [schedW] using ha

/-- C7: immediately after a completed on-policy update, t_start equals the
pre-update t, t is unchanged, and all seven per-timestep buffers are
empty. -/
theorem C7_window_lifecycle (s : SchedState) (h : s.t_start < s.t) :
    ∃ s2, update_on_policy_sched s = Except.ok s2 ∧
      s2.t_start = s.t ∧ s2.t = s.t ∧
      s2.past_action_log_prob = [] ∧ s2.past_action_entropy = [] ∧
      s2.past_states = [] ∧ s2.past_rewards = [] ∧
      s2.past_values = [] ∧ s2.past_action_distrib = [] ∧
      s2.past_avg_action_distrib = [] := by
  unfold update_on_policy_sched
  rw [if_pos h]
  exact ⟨_, rfl, rfl, rfl, rfl, rfl, rfl, rfl, rfl, rfl, rfl⟩

/-- Witness for C7 at a concrete state. -/
theorem C7_window_lifecycle_witness :
    ∃ s2, update_on_policy_sched schedW = Except.ok s2 ∧
      s2.t_start = schedW.t ∧ s2.t = schedW.t ∧
      s2.past_action_log_prob = [] ∧ s2.past_action_entropy = [] ∧
      s2.past_states = [] ∧ s2.past_rewards = [] ∧
      s2.past_values = [] ∧ s2.past_action_distrib = [] ∧
      s2.past_avg_action_distrib = [] :=
  C7_window_lifecycle schedW (by norm_num [schedW])

/-- C8: with an empty replay buffer, update_from_replay is a complete
no-op: the whole agent state is returned unchanged and no error is
raised. -/
theorem C8_empty_replay_noop (s : SchedState) (h : s.replay_len = 0) :
    update_from_replay_sched s = s := by
  simp [update_from_replay_sched, h]

/-- Witness for C8 at a concrete state with an empty buffer. -/
theorem C8_empty_replay_noop_witness :
    update_from_replay_sched schedW = schedW :=
  C8_empty_replay_noop schedW rfl

/-- Parameter blob of a model or optimizer checkpoint. -/
structure Params where
  vals : List ℚ
  deriving DecidableEq

/-- A checkpoint directory: which of the two npz files exist and their
contents. -/
structure CheckpointDir where
  model_file : Option Params
  optimizer_file : Option Params

/-- The parameter stores DiscreteACER.load touches. -/
structure AgentParams where
  model : Params
  shared_model : Params
  optimizer : Params
  deriving DecidableEq

/-- DiscreteACER.load, acer.py lines 551-561: loads model.npz into the
process-local model (load_npz raises when it is absent), copies the
parameters into the shared model, then loads optimizer.npz only if the
file exists, otherwise prints a warning and carries on with the optimizer
untouched.  The returned list collects warnings. -/
def load (d : CheckpointDir) (a : AgentParams) :
    Except String (AgentParams × List String) :=
  match d.model_file with
  | none => Except.error "FileNotFoundError: model.npz"
  | some m =>
    match d.optimizer_file with
    | some o =>
      Except.ok ({ model := m, shared_model := m, optimizer := o }, [])
    | none =>
      Except.ok
        ({ model := m, shared_model := m, optimizer := a.optimizer },
          ["WARNING: optimizer.npz was not found, so loaded only a model"])

/-- C9: loading a checkpoint that has a model blob but no optimizer blob
restores the model (also into the shared model), emits a warning, leaves
the optimizer state unchanged, and returns normally. -/
theorem C9_missing_optimizer_nonfatal (d : CheckpointDir) (a : AgentParams)
    (m : Params) (h1 : d.model_file = some m)
    (h2 : d.optimizer_file = none) :
    load d a =
      Except.ok
        ({ model := m, shared_model := m, optimizer := a.optimizer },
          ["WARNING: optimizer.npz was not found, so loaded only a model"]) := by
  simp [load, h1, h2]

/-- A concrete checkpoint directory with no optimizer blob. -/
def dirW : CheckpointDir :=
  { model_file := some ⟨[1, 2]⟩, optimizer_file := none }

/-- A concrete pre-load agent parameter state. -/
def agentW : AgentParams :=
  { model := ⟨[0]⟩, shared_model := ⟨[0]⟩, optimizer := ⟨[7]⟩ }

/-- Witness for C9 at a concrete directory and agent. -/
theorem C9_missing_optimizer_nonfatal_witness :
    load dirW agentW =
      Except.ok
        ({ model := ⟨[1, 2]⟩, shared_model := ⟨[1, 2]⟩, optimizer := agentW.optimizer },
          ["WARNING: optimizer.npz was not found, so loaded only a model"]) :=
  C9_missing_optimizer_nonfatal dirW agentW ⟨[1, 2]⟩ rfl rfl

end Acer
